import Mathlib

/-!
# terraform-provider-airflow: reconciliation core

A shallow embedding of `internal/provider/resource_connection.go`,
`resource_variable.go`, `resource_pool.go` and `resource_dag.go`.

* Values of Go type `interface{}` produced by `encoding/json` are the type `JVal`.
* `reflect.DeepEqual` on such values is `deepEqual`.
* `strings.TrimSpace` is `TrimSpace`.
* `json.Unmarshal` is a parameter of `suppressSameJsonDiff`: every result below
  holds for every decoder.
-/

namespace Airflow

/-! ## JSON values as Go holds them in an `interface{}` -/

/-- The dynamic values `json.Unmarshal` stores in an `interface{}`:
`nil`, `bool`, `float64`, `string`, `[]interface{}` and `map[string]interface{}`.
A JSON number is always a finite `float64` (the decoder rejects what overflows and
JSON has no NaN), and `==` on finite floats is equality of the numbers they denote,
so a number is held as that rational. A map is held as the list of its entries, in
some order; a Go map has one entry per key (`JVal.wf`). -/
inductive JVal where
  | null : JVal
  | bool (b : Bool) : JVal
  | num (q : ℚ) : JVal
  | str (s : String) : JVal
  | arr (xs : List JVal) : JVal
  | obj (kvs : List (String × JVal)) : JVal

mutual
/-- Go `reflect.DeepEqual` on decoded JSON values: equal dynamic types, `==` on
scalars, element-wise on slices, and on maps equal length with every key of the
first found in the second with a deeply equal value. -/
def deepEqual : JVal → JVal → Bool
  | .null, .null => true
  | .bool a, .bool b => a == b
  | .num a, .num b => a == b
  | .str a, .str b => a == b
  | .arr xs, .arr ys => deepEqualSlice xs ys
  | .obj m1, .obj m2 => m1.length == m2.length && deepEqualMap m1 m2
  | _, _ => false
/-- Slices: same length and deeply equal elements, index by index. -/
def deepEqualSlice : List JVal → List JVal → Bool
  | [], [] => true
  | x :: xs, y :: ys => deepEqual x y && deepEqualSlice xs ys
  | _, _ => false
/-- Maps: the loop `for _, k := range v1.MapKeys()` of `reflect.DeepEqual`; each key
of the first map is looked up in the second. -/
def deepEqualMap : List (String × JVal) → List (String × JVal) → Bool
  | [], _ => true
  | (k, v) :: rest, m2 =>
    (match m2.lookup k with
     | some w => deepEqual v w
     | none => false) && deepEqualMap rest m2
end

mutual
/-- Representation invariant of a decoded value: every map has one entry per key. -/
def JVal.wf : JVal → Bool
  | .arr xs => wfSlice xs
  | .obj m => decide (m.map Prod.fst).Nodup && wfEntries m
  | _ => true
/-- Every element of a slice is well formed. -/
def wfSlice : List JVal → Bool
  | [] => true
  | x :: xs => x.wf && wfSlice xs
/-- Every value of a map is well formed. -/
def wfEntries : List (String × JVal) → Bool
  | [] => true
  | (_, v) :: rest => v.wf && wfEntries rest
end

mutual
/-- Two representations denote the same structural value: equal scalars, slices equal
element by element, and maps with the same entries listed in any order. -/
def JVal.same : JVal → JVal → Prop
  | .null, .null => True
  | .bool a, .bool b => a = b
  | .num a, .num b => a = b
  | .str a, .str b => a = b
  | .arr xs, .arr ys => sameSlice xs ys
  | .obj m1, .obj m2 => ∃ m, sameEntries m1 m ∧ m.Perm m2
  | _, _ => False
/-- Slices of the same length whose elements denote the same values. -/
def sameSlice : List JVal → List JVal → Prop
  | [], [] => True
  | x :: xs, y :: ys => JVal.same x y ∧ sameSlice xs ys
  | _, _ => False
/-- Entry lists with the same keys in the same order and values denoting the same. -/
def sameEntries : List (String × JVal) → List (String × JVal) → Prop
  | [], [] => True
  | (k, v) :: rest, (k2, w) :: rest2 => k = k2 ∧ JVal.same v w ∧ sameEntries rest rest2
  | _, _ => False
end

/-! ## `strings.TrimSpace` -/

/-- Go `unicode.IsSpace`: the Unicode White_Space code points. -/
def isSpace (c : Char) : Bool :=
  let n := c.toNat
  n == 0x09 || n == 0x0A || n == 0x0B || n == 0x0C || n == 0x0D || n == 0x20 ||
  n == 0x85 || n == 0xA0 || n == 0x1680 || (0x2000 ≤ n && n ≤ 0x200A) ||
  n == 0x2028 || n == 0x2029 || n == 0x202F || n == 0x205F || n == 0x3000

/-- Go `strings.TrimSpace`: drop leading and trailing white space. -/
def TrimSpace (s : String) : String :=
  String.mk ((s.data.dropWhile isSpace).reverse.dropWhile isSpace).reverse

/-- The diff-suppression predicate of the `extra` field
(`resource_connection.go`, `suppressSameJsonDiff`). `unmarshal` is `json.Unmarshal`
into an `interface{}`: `none` is a non-nil error. The key `k` and the resource data
`d` are not read. -/
def suppressSameJsonDiff {δ : Type} (unmarshal : String → Option JVal)
    (_k oldo newo : String) (_d : δ) : Bool :=
  if TrimSpace oldo == TrimSpace newo then true
  else
    match unmarshal oldo with
    | none => false
    | some oldIface =>
      match unmarshal newo with
      | none => false
      | some newIface => deepEqual oldIface newIface

/-! ## The remote API client (`airflow-client-go`), as the provider uses it -/

/-- A generated `NullableString` / `NullableInt32` (`value *T; isSet bool`): not sent,
sent as JSON `null`, or sent with a value. -/
inductive Nullable (α : Type) where
  | unset : Nullable α
  | null : Nullable α
  | value (v : α) : Nullable α
  deriving DecidableEq, Repr

/-- Generated getter `GetX()`: the value, or the zero value when unset or null. -/
def Nullable.getD {α : Type} (x : Nullable α) (zero : α) : α :=
  match x with
  | .value v => v
  | _ => zero

/-- Generated `Get()`: the pointer held, `nil` when unset or null. -/
def Nullable.Get {α : Type} (x : Nullable α) : Option α :=
  match x with
  | .value v => some v
  | _ => none

/-- Generated `IsSet()`. -/
def Nullable.IsSet {α : Type} (x : Nullable α) : Bool :=
  match x with
  | .unset => false
  | _ => true

/-- Go `!=` on two `NullableString` structs whose pointers, when not nil, come from
different allocations (one decoded from a response, one taken from a local
variable): the structs are equal only when both pointers are nil and the `isSet`
flags agree. -/
def Nullable.structNe {α : Type} (x y : Nullable α) : Bool :=
  match x, y with
  | .unset, .unset => false
  | .null, .null => false
  | _, _ => true

/-- Go conversion `int32(v)` of an `int`: wraps modulo 2^32 into the signed range. -/
def int32 (n : Int) : Int := (n + 2147483648) % 4294967296 - 2147483648

/-- The fields of `*http.Response` the provider reads. -/
structure HttpResponse where
  StatusCode : Int
  Status : String
  deriving DecidableEq, Repr

/-- Result `(*T, *http.Response, error)` of a generated `Execute()`; `none` is `nil`.
An error is held as its message. -/
structure Exec (α : Type) where
  val : Option α
  resp : Option HttpResponse
  err : Option String

/-- Result `(*http.Response, error)` of a delete `Execute()` (the decoded value of
`DeleteDag`, never read, is left out). -/
structure ExecDelete where
  resp : Option HttpResponse
  err : Option String

/-- The guard `resp != nil && resp.StatusCode == code`. -/
def respIs (resp : Option HttpResponse) (code : Int) : Bool :=
  match resp with
  | some r => r.StatusCode == code
  | none => false

/-- Body of create and update of a connection (`airflow.ConnectionBody`). -/
structure ConnectionBody where
  ConnectionId : String
  ConnType : String
  Description : Nullable String
  Host : Nullable String
  Login : Nullable String
  Schema : Nullable String
  Port : Nullable Int
  Password : Nullable String
  Extra : Nullable String
  deriving DecidableEq, Repr

/-- Generated constructor `airflow.NewConnectionBody`: the two required fields, every
optional field unset. -/
def NewConnectionBody (connId connType : String) : ConnectionBody :=
  ⟨connId, connType, .unset, .unset, .unset, .unset, .unset, .unset, .unset⟩

/-- Generated `SetHost`. -/
def ConnectionBody.SetHost (o : ConnectionBody) (v : String) : ConnectionBody :=
  { o with Host := .value v }

/-- Generated `SetHostNil`: the field is sent as an explicit null. -/
def ConnectionBody.SetHostNil (o : ConnectionBody) : ConnectionBody :=
  { o with Host := .null }

/-- Generated `SetDescription`. -/
def ConnectionBody.SetDescription (o : ConnectionBody) (v : String) : ConnectionBody :=
  { o with Description := .value v }

/-- Generated `SetDescriptionNil`. -/
def ConnectionBody.SetDescriptionNil (o : ConnectionBody) : ConnectionBody :=
  { o with Description := .null }

/-- Generated `SetLogin`. -/
def ConnectionBody.SetLogin (o : ConnectionBody) (v : String) : ConnectionBody :=
  { o with Login := .value v }

/-- Generated `SetLoginNil`. -/
def ConnectionBody.SetLoginNil (o : ConnectionBody) : ConnectionBody :=
  { o with Login := .null }

/-- Generated `SetSchema`. -/
def ConnectionBody.SetSchema (o : ConnectionBody) (v : String) : ConnectionBody :=
  { o with Schema := .value v }

/-- Generated `SetSchemaNil`. -/
def ConnectionBody.SetSchemaNil (o : ConnectionBody) : ConnectionBody :=
  { o with Schema := .null }

/-- Generated `SetPort`. -/
def ConnectionBody.SetPort (o : ConnectionBody) (v : Int) : ConnectionBody :=
  { o with Port := .value v }

/-- Generated `SetPortNil`. -/
def ConnectionBody.SetPortNil (o : ConnectionBody) : ConnectionBody :=
  { o with Port := .null }

/-- Generated `SetPassword`. -/
def ConnectionBody.SetPassword (o : ConnectionBody) (v : String) : ConnectionBody :=
  { o with Password := .value v }

/-- Generated `SetExtra`. -/
def ConnectionBody.SetExtra (o : ConnectionBody) (v : String) : ConnectionBody :=
  { o with Extra := .value v }

/-- Generated `SetExtraNil`. -/
def ConnectionBody.SetExtraNil (o : ConnectionBody) : ConnectionBody :=
  { o with Extra := .null }

/-- A connection as the remote returns it (`airflow.ConnectionResponse`). -/
structure ConnectionResponse where
  ConnectionId : String
  ConnType : String
  Description : Nullable String
  Host : Nullable String
  Login : Nullable String
  Schema : Nullable String
  Port : Nullable Int
  Password : Nullable String
  Extra : Nullable String
  deriving DecidableEq, Repr

/-- Body of create and update of a variable (`airflow.VariableBody`). -/
structure VariableBody where
  Key : String
  Value : String
  Description : Nullable String
  deriving DecidableEq, Repr

/-- Generated `SetDescription` of a variable body. -/
def VariableBody.SetDescription (o : VariableBody) (v : String) : VariableBody :=
  { o with Description := .value v }

/-- A variable as the remote returns it (`airflow.VariableResponse`). -/
structure VariableResponse where
  Key : String
  Value : String
  Description : Nullable String
  deriving DecidableEq, Repr

/-- Body of pool creation (`airflow.PoolBody`), the fields the provider fills. -/
structure PoolBody where
  Name : String
  Slots : Int
  deriving DecidableEq, Repr

/-- Body of a pool update (`airflow.PoolPatchBody`), the field the provider fills. -/
structure PoolPatchBody where
  Slots : Nullable Int
  deriving DecidableEq, Repr

/-- A pool as the remote returns it (`airflow.PoolResponse`). -/
structure PoolResponse where
  Name : String
  Slots : Int
  OccupiedSlots : Int
  QueuedSlots : Int
  OpenSlots : Int
  RunningSlots : Int
  deriving DecidableEq, Repr

/-- Body of a DAG update (`airflow.DAGPatchBody`). -/
structure DAGPatchBody where
  IsPaused : Bool
  deriving DecidableEq, Repr

/-- A DAG as the remote returns it (`airflow.DAGResponse`), the fields that are read. -/
structure DAGResponse where
  DagId : String
  IsPaused : Bool
  IsStale : Bool
  Description : Nullable String
  FileToken : String
  Fileloc : String
  deriving DecidableEq, Repr

/-- One remote call, with everything that is sent. -/
inductive Call where
  | PostConnection (body : ConnectionBody) : Call
  | GetConnection (id : String) : Call
  | PatchConnection (id : String) (body : ConnectionBody) : Call
  | DeleteConnection (id : String) : Call
  | PostVariable (body : VariableBody) : Call
  | GetVariable (key : String) : Call
  | PatchVariable (key : String) (body : VariableBody) : Call
  | DeleteVariable (key : String) : Call
  | PostPool (body : PoolBody) : Call
  | GetPool (name : String) : Call
  | PatchPool (name : String) (body : PoolPatchBody) (updateMask : List String) : Call
  | DeletePool (name : String) : Call
  | PatchDag (id : String) (body : DAGPatchBody) : Call
  | GetDag (id : String) : Call
  | DeleteDag (id : String) : Call
  deriving DecidableEq, Repr

/-- The transport behind `ProviderConfig.ApiClient`: what each `Execute()` returns,
given the calls made before it (the remote may change between calls) and what is
sent. Nothing is assumed of it. -/
structure ApiClient where
  PostConnection : List Call → ConnectionBody → Exec ConnectionResponse
  GetConnection : List Call → String → Exec ConnectionResponse
  PatchConnection : List Call → String → ConnectionBody → Exec ConnectionResponse
  DeleteConnection : List Call → String → ExecDelete
  PostVariable : List Call → VariableBody → Exec VariableResponse
  GetVariable : List Call → String → Exec VariableResponse
  PatchVariable : List Call → String → VariableBody → Exec VariableResponse
  DeleteVariable : List Call → String → ExecDelete
  PostPool : List Call → PoolBody → Exec PoolResponse
  GetPool : List Call → String → Exec PoolResponse
  PatchPool : List Call → String → PoolPatchBody → List String → Exec PoolResponse
  DeletePool : List Call → String → ExecDelete
  PatchDag : List Call → String → DAGPatchBody → Exec DAGResponse
  GetDag : List Call → String → Exec DAGResponse
  DeleteDag : List Call → String → ExecDelete

/-! ## `schema.ResourceData` and `diag.Diagnostics` -/

/-- The `diag.Diagnostics` an operation returns: the error summaries; `nil` (the
empty list) is success. -/
abbrev Diagnostics := List String

/-- Go `diag.Errorf`: one error diagnostic with the formatted text. -/
def Errorf (msg : String) : Diagnostics := [msg]

/-- How `%s` prints an `error`: its message, and `%!s(<nil>)` for a nil error. -/
def fmtErr (err : Option String) : String := err.getD "%!s(<nil>)"

/-- How an operation ends: it returns diagnostics, leaving the resource data `d`, or
the goroutine faults on a nil pointer dereference. -/
inductive Outcome (σ : Type) where
  | returned (diags : Diagnostics) (d : σ) : Outcome σ
  | panicked : Outcome σ
  deriving DecidableEq, Repr

/-- An operation run to its end: every remote call made so far, oldest first, and
the outcome. -/
structure Run (σ : Type) where
  calls : List Call
  out : Outcome σ
  deriving DecidableEq, Repr

/-- SDK `d.Get` on a string attribute: the value, `""` when not set. -/
def GetString (f : Option String) : String := f.getD ""

/-- SDK `d.GetOk` on a string attribute: the value and whether it is set to
something other than the zero value `""`. -/
def GetOkString (f : Option String) : String × Bool := (f.getD "", f.isSome && f.getD "" != "")

/-- SDK `d.Get` on an int attribute: the value, `0` when not set. -/
def GetInt (f : Option Int) : Int := f.getD 0

/-- SDK `d.GetOk` on an int attribute: the value and whether it is set to something
other than the zero value `0`. -/
def GetOkInt (f : Option Int) : Int × Bool := (f.getD 0, f.isSome && f.getD 0 != 0)

/-- SDK `d.Get` on a bool attribute: the value, `false` when not set. -/
def GetBool (f : Option Bool) : Bool := f.getD false

/-- The `*schema.ResourceData` of an `airflow_connection`: the identifier and the
attributes of the schema, each set or not. -/
structure ConnectionData where
  Id : String
  connection_id : Option String
  conn_type : Option String
  description : Option String
  host : Option String
  login : Option String
  schema : Option String
  port : Option Int
  password : Option String
  extra : Option String
  deriving DecidableEq, Repr

/-- The `*schema.ResourceData` of an `airflow_variable`. -/
structure VariableData where
  Id : String
  description : Option String
  key : Option String
  value : Option String
  deriving DecidableEq, Repr

/-- The `*schema.ResourceData` of an `airflow_pool`. -/
structure PoolData where
  Id : String
  name : Option String
  slots : Option Int
  occupied_slots : Option Int
  used_slots : Option Int
  queued_slots : Option Int
  open_slots : Option Int
  deriving DecidableEq, Repr

/-- The `*schema.ResourceData` of an `airflow_dag`. -/
structure DagData where
  Id : String
  dag_id : Option String
  description : Option String
  delete_dag : Option Bool
  file_token : Option String
  fileloc : Option String
  is_active : Option Bool
  is_paused : Option Bool
  is_subdag : Option Bool
  root_dag_id : Option String
  deriving DecidableEq, Repr

/-! ## Connection (`resource_connection.go`) -/

/-- The password branch at the end of `resourceConnectionRead`: the password the
remote returned when it set one (a nil pointer is stored as the zero value), else the
one held locally when `GetOk` finds it, else nothing is written. -/
def readPassword (remote : Nullable String) (pw : Option String) : Option String :=
  if remote.IsSet then some (remote.Get.getD "")
  else if (GetOkString pw).2 then some (GetOkString pw).1
  else pw

/-- Go `resourceConnectionRead`. The generated getters accept a nil receiver and then
return zero values. -/
def resourceConnectionRead (m : ApiClient) (log : List Call) (d : ConnectionData) :
    Run ConnectionData :=
  let r := m.GetConnection log d.Id
  let log := log ++ [Call.GetConnection d.Id]
  if respIs r.resp 404 then
    ⟨log, .returned [] { d with Id := "" }⟩
  else
    match r.err with
    | some err =>
      ⟨log, .returned (Errorf ("failed to get connection `" ++ d.Id ++ "` from Airflow: " ++ err)) d⟩
    | none =>
      let c : ConnectionResponse :=
        r.val.getD ⟨"", "", .unset, .unset, .unset, .unset, .unset, .unset, .unset⟩
      ⟨log, .returned []
        { d with
          connection_id := some c.ConnectionId
          conn_type := some c.ConnType
          host := some (c.Host.getD "")
          login := some (c.Login.getD "")
          schema := some (c.Schema.getD "")
          port := some (c.Port.getD 0)
          extra := some (c.Extra.getD "")
          description := some (c.Description.getD "")
          password := readPassword c.Password d.password }⟩

/-- The body `conn` as `resourceConnectionUpdate` builds it before the call: the
statements from `connId := d.Id()` to the `extra` branch. -/
def connectionUpdateBody (d : ConnectionData) : ConnectionBody :=
  let connId := d.Id
  let connType := GetString d.conn_type
  let conn := NewConnectionBody connId connType
  let conn :=
    if (GetOkString d.host).2 then conn.SetHost (GetOkString d.host).1
    else conn.SetHostNil
  let conn :=
    if (GetOkString d.description).2 then conn.SetDescription (GetOkString d.description).1
    else conn.SetDescriptionNil
  let conn :=
    if (GetOkString d.login).2 then conn.SetLogin (GetOkString d.login).1
    else conn.SetLoginNil
  let conn :=
    if (GetOkString d.schema).2 then conn.SetSchema (GetOkString d.schema).1
    else conn.SetSchemaNil
  let conn :=
    if (GetOkInt d.port).2 then conn.SetPort (int32 (GetOkInt d.port).1)
    else conn.SetPortNil
  let conn :=
    if (GetOkString d.password).2 && (GetOkString d.password).1 != "" then
      conn.SetPassword (GetOkString d.password).1
    else conn
  let conn :=
    if (GetOkString d.extra).2 then conn.SetExtra (GetOkString d.extra).1
    else conn.SetExtraNil
  conn

/-- Go `resourceConnectionUpdate`: the body of `connectionUpdateBody`, the call, and
on success a Read. -/
def resourceConnectionUpdate (m : ApiClient) (log : List Call) (d : ConnectionData) :
    Run ConnectionData :=
  let connId := d.Id
  let conn := connectionUpdateBody d
  let r := m.PatchConnection log connId conn
  let log := log ++ [Call.PatchConnection connId conn]
  match r.err with
  | some err =>
    ⟨log, .returned (Errorf ("failed to update connection `" ++ connId ++ "` from Airflow: " ++ err)) d⟩
  | none => resourceConnectionRead m log d

/-- The body `conn` as `resourceConnectionCreate` builds it before the call: the
statements from `connId := d.Get("connection_id")` to the `extra` branch. The
password is set from `d.Get`, with no test. -/
def connectionCreateBody (d : ConnectionData) : ConnectionBody :=
  let connId := GetString d.connection_id
  let connType := GetString d.conn_type
  let conn := NewConnectionBody connId connType
  let conn := if (GetOkString d.host).2 then conn.SetHost (GetOkString d.host).1 else conn
  let conn :=
    if (GetOkString d.description).2 then conn.SetDescription (GetOkString d.description).1
    else conn
  let conn := if (GetOkString d.login).2 then conn.SetLogin (GetOkString d.login).1 else conn
  let conn := if (GetOkString d.schema).2 then conn.SetSchema (GetOkString d.schema).1 else conn
  let conn := if (GetOkInt d.port).2 then conn.SetPort (int32 (GetOkInt d.port).1) else conn
  let conn := conn.SetPassword (GetString d.password)
  let conn := if (GetOkString d.extra).2 then conn.SetExtra (GetOkString d.extra).1 else conn
  conn

/-- Go `resourceConnectionCreate`: the body of `connectionCreateBody`, the call, the
adoption on a 409, and on success a Read. -/
def resourceConnectionCreate (m : ApiClient) (log : List Call) (d : ConnectionData) :
    Run ConnectionData :=
  let connId := GetString d.connection_id
  let conn := connectionCreateBody d
  let r := m.PostConnection log conn
  let log := log ++ [Call.PostConnection conn]
  match r.err with
  | some err =>
    if respIs r.resp 409 then
      let g := m.GetConnection log connId
      let log := log ++ [Call.GetConnection connId]
      match g.err with
      | some getErr =>
        ⟨log, .returned (Errorf ("connection `" ++ connId ++
          "` already exists, but failed to fetch it: " ++ getErr)) d⟩
      | none =>
        match g.val with
        | none => ⟨log, .panicked⟩
        | some existingConnection =>
          resourceConnectionUpdate m log { d with Id := existingConnection.ConnectionId }
    else
      ⟨log, .returned (Errorf ("failed to create connection `" ++ connId ++
        "` from Airflow: " ++ err)) d⟩
  | none => resourceConnectionRead m log { d with Id := connId }

/-- Go `resourceConnectionDelete`. -/
def resourceConnectionDelete (m : ApiClient) (log : List Call) (d : ConnectionData) :
    Run ConnectionData :=
  let r := m.DeleteConnection log d.Id
  let log := log ++ [Call.DeleteConnection d.Id]
  match r.err with
  | some err =>
    ⟨log, .returned (Errorf ("failed to delete connection `" ++ d.Id ++ "` from Airflow: " ++ err)) d⟩
  | none =>
    if respIs r.resp 404 then ⟨log, .returned [] d⟩
    else ⟨log, .returned [] d⟩

/-! ## Variable (`resource_variable.go`) -/

/-- Go `resourceVariableRead`. `resp.Status` faults on a nil response and
`variable.Key` on a nil variable. -/
def resourceVariableRead (m : ApiClient) (log : List Call) (d : VariableData) :
    Run VariableData :=
  let r := m.GetVariable log d.Id
  let log := log ++ [Call.GetVariable d.Id]
  if respIs r.resp 404 then
    ⟨log, .returned [] { d with Id := "" }⟩
  else
    match r.err with
    | some err =>
      match r.resp with
      | none => ⟨log, .panicked⟩
      | some resp =>
        ⟨log, .returned (Errorf ("failed to get variable `" ++ d.Id ++ "`, Status: `" ++
          resp.Status ++ "` from Airflow: " ++ err)) d⟩
    | none =>
      match r.val with
      | none => ⟨log, .panicked⟩
      | some vbl =>
        ⟨log, .returned []
          { d with
            key := some vbl.Key
            value := some vbl.Value
            description := some (vbl.Description.getD "") }⟩

/-- The body `variableReq` as `resourceVariableUpdate` builds it before the call:
key and value, and the description only when `GetOk` finds one; there is no other
branch. -/
def variableUpdateBody (d : VariableData) : VariableBody :=
  let val := GetString d.value
  let key := d.Id
  let variableReq : VariableBody := ⟨key, val, .unset⟩
  let variableReq :=
    if (GetOkString d.description).2 then
      variableReq.SetDescription (GetOkString d.description).1
    else variableReq
  variableReq

/-- Go `resourceVariableUpdate`: the body of `variableUpdateBody`, the call, and on
success a Read. -/
def resourceVariableUpdate (m : ApiClient) (log : List Call) (d : VariableData) :
    Run VariableData :=
  let key := d.Id
  let variableReq := variableUpdateBody d
  let r := m.PatchVariable log key variableReq
  let log := log ++ [Call.PatchVariable key variableReq]
  match r.err with
  | some err =>
    match r.resp with
    | none => ⟨log, .panicked⟩
    | some resp =>
      ⟨log, .returned (Errorf ("failed to update variable `" ++ key ++ "`, Status: `" ++
        resp.Status ++ "` from Airflow: " ++ err)) d⟩
  | none => resourceVariableRead m log d

/-- The body `variableReq` as `resourceVariableCreate` builds it before the call. -/
def variableCreateBody (d : VariableData) : VariableBody :=
  let key := GetString d.key
  let val := GetString d.value
  let variableReq : VariableBody := ⟨key, val, .unset⟩
  let variableReq :=
    if (GetOkString d.description).2 then
      variableReq.SetDescription (GetOkString d.description).1
    else variableReq
  variableReq

/-- Go `resourceVariableCreate`: the body of `variableCreateBody`, the call, the
adoption on a conflict, and on success a Read. The conflict test reads `res.StatusCode` with no nil
check, and the comparison after adoption is the source's:
`existingVariable.Value != variableReq.Key || existingVariable.Description != variableReq.Description`. -/
def resourceVariableCreate (m : ApiClient) (log : List Call) (d : VariableData) :
    Run VariableData :=
  let key := GetString d.key
  let variableReq := variableCreateBody d
  let r := m.PostVariable log variableReq
  let log := log ++ [Call.PostVariable variableReq]
  match r.err with
  | some err =>
    match r.resp with
    | none => ⟨log, .panicked⟩
    | some res =>
      if res.StatusCode == 409 || res.Status == "409 Conflict" then
        let g := m.GetVariable log key
        let log := log ++ [Call.GetVariable key]
        match g.err with
        | some getErr =>
          ⟨log, .returned (Errorf ("variable `" ++ key ++
            "` already exists, but failed to fetch it: " ++ getErr)) d⟩
        | none =>
          match g.val with
          | none => ⟨log, .panicked⟩
          | some existingVariable =>
            let d := { d with Id := existingVariable.Key }
            if existingVariable.Value != variableReq.Key ||
                existingVariable.Description.structNe variableReq.Description then
              resourceVariableUpdate m log d
            else resourceVariableRead m log d
      else
        ⟨log, .returned (Errorf ("failed to create variable `" ++ key ++ "`, Status: `" ++
          res.Status ++ "` from Airflow: " ++ err)) d⟩
  | none => resourceVariableRead m log { d with Id := key }

/-- Go `resourceVariableDelete`. -/
def resourceVariableDelete (m : ApiClient) (log : List Call) (d : VariableData) :
    Run VariableData :=
  let r := m.DeleteVariable log d.Id
  let log := log ++ [Call.DeleteVariable d.Id]
  match r.err with
  | some err =>
    match r.resp with
    | none => ⟨log, .panicked⟩
    | some resp =>
      ⟨log, .returned (Errorf ("failed to delete variable `" ++ d.Id ++ "`, Status: `" ++
        resp.Status ++ "` from Airflow: " ++ err)) d⟩
  | none =>
    if respIs r.resp 404 then ⟨log, .returned [] d⟩
    else ⟨log, .returned [] d⟩

/-! ## Pool (`resource_pool.go`) -/

/-- Go `resourcePoolRead`. `pool.Name` faults on a nil pool. -/
def resourcePoolRead (m : ApiClient) (log : List Call) (d : PoolData) : Run PoolData :=
  let r := m.GetPool log d.Id
  let log := log ++ [Call.GetPool d.Id]
  if respIs r.resp 404 then
    ⟨log, .returned [] { d with Id := "" }⟩
  else
    match r.err with
    | some err =>
      ⟨log, .returned (Errorf ("failed to get pool `" ++ d.Id ++ "` from Airflow: " ++ err)) d⟩
    | none =>
      match r.val with
      | none => ⟨log, .panicked⟩
      | some pool =>
        ⟨log, .returned []
          { d with
            name := some pool.Name
            slots := some pool.Slots
            occupied_slots := some pool.OccupiedSlots
            queued_slots := some pool.QueuedSlots
            open_slots := some pool.OpenSlots
            used_slots := some pool.RunningSlots }⟩

/-- Go `resourcePoolUpdate`. -/
def resourcePoolUpdate (m : ApiClient) (log : List Call) (d : PoolData) : Run PoolData :=
  let slots := int32 (GetInt d.slots)
  let name := d.Id
  let pool : PoolPatchBody := ⟨.value slots⟩
  let r := m.PatchPool log name pool ["slots"]
  let log := log ++ [Call.PatchPool name pool ["slots"]]
  match r.err with
  | some err =>
    ⟨log, .returned (Errorf ("failed to update pool `" ++ name ++ "` from Airflow: " ++ err)) d⟩
  | none => resourcePoolRead m log d

/-- Go `resourcePoolCreate`. -/
def resourcePoolCreate (m : ApiClient) (log : List Call) (d : PoolData) : Run PoolData :=
  let name := GetString d.name
  let slots := int32 (GetInt d.slots)
  let pool : PoolBody := ⟨name, slots⟩
  let r := m.PostPool log pool
  let log := log ++ [Call.PostPool pool]
  match r.err with
  | some err =>
    if respIs r.resp 409 then
      let g := m.GetPool log name
      let log := log ++ [Call.GetPool name]
      match g.err with
      | some getErr =>
        ⟨log, .returned (Errorf ("pool `" ++ name ++
          "` already exists, but failed to fetch it: " ++ getErr)) d⟩
      | none =>
        match g.val with
        | none => ⟨log, .panicked⟩
        | some existingPool =>
          let d := { d with Id := existingPool.Name }
          if existingPool.Slots != slots then resourcePoolUpdate m log d
          else resourcePoolRead m log d
    else
      ⟨log, .returned (Errorf ("failed to create pool `" ++ name ++ "` from Airflow: " ++ err)) d⟩
  | none => resourcePoolRead m log { d with Id := name }

/-- Go `resourcePoolDelete`. -/
def resourcePoolDelete (m : ApiClient) (log : List Call) (d : PoolData) : Run PoolData :=
  if d.Id == "default_pool" then ⟨log, .returned [] d⟩
  else
    let r := m.DeletePool log d.Id
    let log := log ++ [Call.DeletePool d.Id]
    match r.err with
    | some err =>
      ⟨log, .returned (Errorf ("failed to delete pool `" ++ d.Id ++ "` from Airflow: " ++ err)) d⟩
    | none =>
      if respIs r.resp 404 then ⟨log, .returned [] d⟩
      else ⟨log, .returned [] d⟩

/-! ## Dag (`resource_dag.go`) -/

/-- Go `resourceDagRead`. `resp.StatusCode != 200` faults on a nil response and
`DAG.DagId` on a nil DAG. -/
def resourceDagRead (m : ApiClient) (log : List Call) (d : DagData) : Run DagData :=
  let r := m.GetDag log d.Id
  let log := log ++ [Call.GetDag d.Id]
  if respIs r.resp 404 then
    ⟨log, .returned [] { d with Id := "" }⟩
  else
    match r.resp with
    | none => ⟨log, .panicked⟩
    | some resp =>
      if resp.StatusCode != 200 then
        ⟨log, .returned (Errorf ("failed to get DAG `" ++ d.Id ++ "` from Airflow: " ++
          fmtErr r.err)) d⟩
      else
        match r.val with
        | none => ⟨log, .panicked⟩
        | some DAG =>
          ⟨log, .returned []
            { d with
              dag_id := some DAG.DagId
              is_paused := some DAG.IsPaused
              is_active := some (!DAG.IsPaused && !DAG.IsStale)
              description := some (DAG.Description.Get.getD "")
              file_token := some DAG.FileToken
              fileloc := some DAG.Fileloc }⟩

/-- Go `resourceDagUpdate`, also the create of the kind. -/
def resourceDagUpdate (m : ApiClient) (log : List Call) (d : DagData) : Run DagData :=
  let dagId := GetString d.dag_id
  let dag : DAGPatchBody := ⟨GetBool d.is_paused⟩
  let r := m.PatchDag log dagId dag
  let log := log ++ [Call.PatchDag dagId dag]
  match r.resp with
  | none => ⟨log, .panicked⟩
  | some res =>
    if res.StatusCode != 200 then
      ⟨log, .returned (Errorf ("failed to update DAG `" ++ dagId ++ "` from Airflow: " ++
        fmtErr r.err)) d⟩
    else resourceDagRead m log { d with Id := dagId }

/-- Go `resourceDagDelete`. -/
def resourceDagDelete (m : ApiClient) (log : List Call) (d : DagData) : Run DagData :=
  if GetBool d.delete_dag then
    let r := m.DeleteDag log d.Id
    let log := log ++ [Call.DeleteDag d.Id]
    match r.err with
    | some err =>
      ⟨log, .returned (Errorf ("failed to delete DAG `" ++ d.Id ++ "` from Airflow: " ++ err)) d⟩
    | none =>
      if respIs r.resp 404 then ⟨log, .returned [] d⟩
      else ⟨log, .returned [] d⟩
  else ⟨log, .returned [] d⟩

/-! ## Sample inputs -/

/-- A decoder that knows two texts of one object, keys in either order. -/
def sampleUnmarshal (s : String) : Option JVal :=
  if s == "\x7b\"a\":1,\"b\":[true,null]\x7d" then
    some (.obj [("a", .num 1), ("b", .arr [.bool true, .null])])
  else if s == "\x7b \"b\": [true, null], \"a\": 1.0 \x7d" then
    some (.obj [("b", .arr [.bool true, .null]), ("a", .num 1)])
  else none

/-- A 200 response. -/
def resp200 : HttpResponse := ⟨200, "200 OK"⟩

/-- A remote on which every call succeeds: it holds connection `c1`, variable `k`
(value `v`, no description), pool `p` (3 slots) and DAG `dag1`. -/
def okClient : ApiClient where
  PostConnection := fun _ _ => ⟨some ⟨"c1", "http", .null, .value "h", .null, .null, .null, .unset, .null⟩, some resp200, none⟩
  GetConnection := fun _ _ => ⟨some ⟨"c1", "http", .null, .value "h", .null, .null, .null, .unset, .null⟩, some resp200, none⟩
  PatchConnection := fun _ _ _ => ⟨some ⟨"c1", "http", .null, .value "h", .null, .null, .null, .unset, .null⟩, some resp200, none⟩
  DeleteConnection := fun _ _ => ⟨some ⟨204, "204 No Content"⟩, none⟩
  PostVariable := fun _ _ => ⟨some ⟨"k", "v", .unset⟩, some resp200, none⟩
  GetVariable := fun _ _ => ⟨some ⟨"k", "v", .unset⟩, some resp200, none⟩
  PatchVariable := fun _ _ _ => ⟨some ⟨"k", "v", .unset⟩, some resp200, none⟩
  DeleteVariable := fun _ _ => ⟨some ⟨204, "204 No Content"⟩, none⟩
  PostPool := fun _ _ => ⟨some ⟨"p", 3, 0, 0, 3, 0⟩, some resp200, none⟩
  GetPool := fun _ _ => ⟨some ⟨"p", 3, 0, 0, 3, 0⟩, some resp200, none⟩
  PatchPool := fun _ _ _ _ => ⟨some ⟨"p", 3, 0, 0, 3, 0⟩, some resp200, none⟩
  DeletePool := fun _ _ => ⟨some ⟨204, "204 No Content"⟩, none⟩
  PatchDag := fun _ _ _ => ⟨some ⟨"dag1", false, false, .null, "t", "/dags/dag1.py"⟩, some resp200, none⟩
  GetDag := fun _ _ => ⟨some ⟨"dag1", false, false, .null, "t", "/dags/dag1.py"⟩, some resp200, none⟩
  DeleteDag := fun _ _ => ⟨some ⟨204, "204 No Content"⟩, none⟩

/-- The remote of `okClient` on which every create answers 409 with the client's
error, the objects being there already. -/
def conflictClient : ApiClient :=
  { okClient with
    PostConnection := fun _ _ => ⟨none, some ⟨409, "409 Conflict"⟩, some "409 Conflict"⟩
    PostVariable := fun _ _ => ⟨none, some ⟨409, "409 Conflict"⟩, some "409 Conflict"⟩
    PostPool := fun _ _ => ⟨none, some ⟨409, "409 Conflict"⟩, some "409 Conflict"⟩ }

/-- The remote of `conflictClient` on which, besides, every update fails with 500. -/
def conflictUpdateFailsClient : ApiClient :=
  { conflictClient with
    PatchConnection := fun _ _ _ =>
      ⟨none, some ⟨500, "500 Internal Server Error"⟩, some "500 Internal Server Error"⟩
    PatchVariable := fun _ _ _ =>
      ⟨none, some ⟨500, "500 Internal Server Error"⟩, some "500 Internal Server Error"⟩
    PatchPool := fun _ _ _ _ =>
      ⟨none, some ⟨500, "500 Internal Server Error"⟩, some "500 Internal Server Error"⟩ }

/-- The remote of `conflictClient` on which, besides, every fetch fails with 500. -/
def conflictFetchFailsClient : ApiClient :=
  { conflictClient with
    GetConnection := fun _ _ =>
      ⟨none, some ⟨500, "500 Internal Server Error"⟩, some "500 Internal Server Error"⟩
    GetVariable := fun _ _ =>
      ⟨none, some ⟨500, "500 Internal Server Error"⟩, some "500 Internal Server Error"⟩
    GetPool := fun _ _ =>
      ⟨none, some ⟨500, "500 Internal Server Error"⟩, some "500 Internal Server Error"⟩ }

/-- A remote that holds nothing: every fetch and every delete answers 404, with the
error the generated client returns for a status of 300 and above. -/
def notFoundClient : ApiClient :=
  { okClient with
    GetConnection := fun _ _ => ⟨none, some ⟨404, "404 Not Found"⟩, some "404 Not Found"⟩
    GetVariable := fun _ _ => ⟨none, some ⟨404, "404 Not Found"⟩, some "404 Not Found"⟩
    GetPool := fun _ _ => ⟨none, some ⟨404, "404 Not Found"⟩, some "404 Not Found"⟩
    GetDag := fun _ _ => ⟨none, some ⟨404, "404 Not Found"⟩, some "404 Not Found"⟩
    DeleteConnection := fun _ _ => ⟨some ⟨404, "404 Not Found"⟩, some "404 Not Found"⟩
    DeleteVariable := fun _ _ => ⟨some ⟨404, "404 Not Found"⟩, some "404 Not Found"⟩
    DeletePool := fun _ _ => ⟨some ⟨404, "404 Not Found"⟩, some "404 Not Found"⟩
    DeleteDag := fun _ _ => ⟨some ⟨404, "404 Not Found"⟩, some "404 Not Found"⟩ }

/-- The remote of `okClient` on which every create fails with 500. -/
def createFailsClient : ApiClient :=
  { okClient with
    PostConnection := fun _ _ =>
      ⟨none, some ⟨500, "500 Internal Server Error"⟩, some "500 Internal Server Error"⟩
    PostVariable := fun _ _ =>
      ⟨none, some ⟨500, "500 Internal Server Error"⟩, some "500 Internal Server Error"⟩
    PostPool := fun _ _ =>
      ⟨none, some ⟨500, "500 Internal Server Error"⟩, some "500 Internal Server Error"⟩ }

/-- Desired connection `c1`: type and host given, every other field unspecified. -/
def connC1 : ConnectionData :=
  { Id := "c1", connection_id := some "c1", conn_type := some "http", description := none,
    host := some "h", login := none, schema := none, port := none, password := none,
    extra := none }

/-- Desired variable `k` with value `v2` and no description. -/
def varKV2 : VariableData := { Id := "k", description := none, key := some "k", value := some "v2" }

/-- Desired variable `k` with value `v` and no description: what `okClient` holds. -/
def varKV : VariableData := { Id := "", description := none, key := some "k", value := some "v" }

/-- Desired pool `p` with 5 slots, not yet created. -/
def poolP5 : PoolData :=
  { Id := "", name := some "p", slots := some 5, occupied_slots := none, used_slots := none,
    queued_slots := none, open_slots := none }

/-- Desired DAG `dag1`, known locally. -/
def dagD1 : DagData :=
  { Id := "dag1", dag_id := some "dag1", description := none, delete_dag := none,
    file_token := none, fileloc := none, is_active := none, is_paused := some false,
    is_subdag := none, root_dag_id := none }

/-! ## The decoder `json.Unmarshal`, as far as it is relied on -/

/-- The white space of JSON (`isSpace` of `encoding/json`): space, tab, line feed and
carriage return. -/
def isJSONSpace (c : Char) : Bool :=
  let n := c.toNat
  n == 0x20 || n == 0x09 || n == 0x0A || n == 0x0D

/-- A text without the JSON white space that surrounds it. -/
def trimJSONSpace (s : String) : String :=
  String.mk ((s.data.dropWhile isJSONSpace).reverse.dropWhile isJSONSpace).reverse

/-- The characters a JSON value can begin with: an object, an array, a string, a
number, `true`, `false`, `null`. -/
def isValueStart (c : Char) : Bool := "\x7b[\"-0123456789tfn".data.contains c

/-- The characters a JSON value can end with: an object, an array, a string, a
number, `true` or `false`, `null`. -/
def isValueEnd (c : Char) : Bool := "\x7d]\"0123456789el".data.contains c

/-- What is relied on of `json.Unmarshal` into an `interface{}`, all of it the JSON
grammar and the Go map: the white space around a text is insignificant; a text
that is accepted is, without that white space, one JSON value, so it begins and ends
with a character that can begin and end a value; and the value stored has one entry
per key in every map. -/
structure IsJsonDecoder (unmarshal : String → Option JVal) : Prop where
  /-- Texts that differ in surrounding JSON white space only decode alike. -/
  surrounding : ∀ s t, trimJSONSpace s = trimJSONSpace t → unmarshal s = unmarshal t
  /-- An accepted text begins, after white space, as a value does. -/
  first : ∀ s v, unmarshal s = some v →
    ∃ c, (trimJSONSpace s).data.head? = some c ∧ isValueStart c = true
  /-- An accepted text ends, before white space, as a value does. -/
  last : ∀ s v, unmarshal s = some v →
    ∃ c, (trimJSONSpace s).data.getLast? = some c ∧ isValueEnd c = true
  /-- A decoded value is well formed. -/
  wf : ∀ s v, unmarshal s = some v → v.wf = true

/-- The equivalence predicate in the words of the specification: attempt to parse
both representations; if either fails to parse, fall back to trimmed literal string
comparison; if both parse, compare the parsed values for deep equality. -/
def sameJsonSpec (unmarshal : String → Option JVal) (oldo newo : String) : Bool :=
  match unmarshal oldo, unmarshal newo with
  | some oldIface, some newIface => deepEqual oldIface newIface
  | _, _ => TrimSpace oldo == TrimSpace newo

/-- A decoder of four texts, `null`, `true` and an object with its number spelled in
two ways, each with any JSON white space around it. -/
def literalUnmarshal (s : String) : Option JVal :=
  if trimJSONSpace s == "null" then some .null
  else if trimJSONSpace s == "true" then some (.bool true)
  else if trimJSONSpace s == "\x7b\"a\":1\x7d" then some (.obj [("a", .num 1)])
  else if trimJSONSpace s == "\x7b\"a\":1.0\x7d" then some (.obj [("a", .num 1)])
  else none

/-- A remote that cannot be reached: every call returns no value, no response (a nil
`*http.Response`) and the transport's error. -/
def unreachableClient : ApiClient where
  PostConnection := fun _ _ => ⟨none, none, some "dial tcp: connection refused"⟩
  GetConnection := fun _ _ => ⟨none, none, some "dial tcp: connection refused"⟩
  PatchConnection := fun _ _ _ => ⟨none, none, some "dial tcp: connection refused"⟩
  DeleteConnection := fun _ _ => ⟨none, some "dial tcp: connection refused"⟩
  PostVariable := fun _ _ => ⟨none, none, some "dial tcp: connection refused"⟩
  GetVariable := fun _ _ => ⟨none, none, some "dial tcp: connection refused"⟩
  PatchVariable := fun _ _ _ => ⟨none, none, some "dial tcp: connection refused"⟩
  DeleteVariable := fun _ _ => ⟨none, some "dial tcp: connection refused"⟩
  PostPool := fun _ _ => ⟨none, none, some "dial tcp: connection refused"⟩
  GetPool := fun _ _ => ⟨none, none, some "dial tcp: connection refused"⟩
  PatchPool := fun _ _ _ _ => ⟨none, none, some "dial tcp: connection refused"⟩
  DeletePool := fun _ _ => ⟨none, some "dial tcp: connection refused"⟩
  PatchDag := fun _ _ _ => ⟨none, none, some "dial tcp: connection refused"⟩
  GetDag := fun _ _ => ⟨none, none, some "dial tcp: connection refused"⟩
  DeleteDag := fun _ _ => ⟨none, some "dial tcp: connection refused"⟩

/-! ## Theorems -/

/-- In a list of entries with distinct keys, looking a key up finds the value it is
listed with. -/
theorem lookup_of_mem {α : Type} :
    ∀ (m : List (String × α)) (k : String) (w : α),
      (m.map Prod.fst).Nodup → (k, w) ∈ m → m.lookup k = some w
  | [], _, _, _, h => by simp at h
  | (k2, w2) :: t, k, w, hn, h => by
    rw [List.map_cons, List.nodup_cons] at hn
    rcases List.mem_cons.mp h with h1 | h1
    · cases h1
      simp [List.lookup]
    · have hk : k ∈ t.map Prod.fst := List.mem_map.mpr ⟨(k, w), h1, rfl⟩
      have hne : k ≠ k2 := fun e => hn.1 (e ▸ hk)
      have : (k == k2) = false := by simpa using hne
      simp only [List.lookup, this]
      exact lookup_of_mem t k w hn.2 h1

/-- Every value listed in a well-formed entry list is well formed. -/
theorem wf_of_mem :
    ∀ (m : List (String × JVal)) (k : String) (w : JVal),
      wfEntries m = true → (k, w) ∈ m → w.wf = true
  | [], _, _, _, h => by simp at h
  | (k2, w2) :: t, k, w, hw, h => by
    simp only [wfEntries, Bool.and_eq_true] at hw
    rcases List.mem_cons.mp h with h1 | h1
    · cases h1
      exact hw.1
    · exact wf_of_mem t k w hw.2 h1

/-- Entry lists related by `sameEntries` have the same length. -/
theorem sameEntries_length :
    ∀ (m1 m2 : List (String × JVal)), sameEntries m1 m2 → m1.length = m2.length
  | [], [], _ => rfl
  | [], _ :: _, h => by simp [sameEntries] at h
  | _ :: _, [], h => by simp [sameEntries] at h
  | (_, _) :: t1, (_, _) :: t2, h => by
    simp only [sameEntries] at h
    simp [sameEntries_length t1 t2 h.2.2]

mutual
/-- Well-formed values that denote the same structural value are deeply equal. -/
theorem deepEqual_of_same :
    ∀ (a b : JVal), a.wf = true → b.wf = true → JVal.same a b → deepEqual a b = true
  | .null, .null, _, _, _ => by simp [deepEqual]
  | .bool x, .bool y, _, _, h => by simp only [JVal.same] at h; simp [deepEqual, h]
  | .num x, .num y, _, _, h => by simp only [JVal.same] at h; simp [deepEqual, h]
  | .str x, .str y, _, _, h => by simp only [JVal.same] at h; simp [deepEqual, h]
  | .arr xs, .arr ys, ha, hb, h => by
    simp only [JVal.wf] at ha hb
    simp only [JVal.same] at h
    simp only [deepEqual]
    exact deepEqualSlice_of_same xs ys ha hb h
  | .obj m1, .obj m2, ha, hb, h => by
    simp only [JVal.wf, Bool.and_eq_true, decide_eq_true_eq] at ha hb
    simp only [JVal.same] at h
    obtain ⟨m, hs, hp⟩ := h
    simp only [deepEqual, Bool.and_eq_true, beq_iff_eq]
    refine ⟨(sameEntries_length m1 m hs).trans hp.length_eq, ?_⟩
    exact deepEqualMap_of_same m1 m m2 ha.2 hb.1 hb.2 hs (fun p hp2 => hp.subset hp2)
  | .null, .bool _, _, _, h | .null, .num _, _, _, h | .null, .str _, _, _, h
  | .null, .arr _, _, _, h | .null, .obj _, _, _, h => by simp [JVal.same] at h
  | .bool _, .null, _, _, h | .bool _, .num _, _, _, h | .bool _, .str _, _, _, h
  | .bool _, .arr _, _, _, h | .bool _, .obj _, _, _, h => by simp [JVal.same] at h
  | .num _, .null, _, _, h | .num _, .bool _, _, _, h | .num _, .str _, _, _, h
  | .num _, .arr _, _, _, h | .num _, .obj _, _, _, h => by simp [JVal.same] at h
  | .str _, .null, _, _, h | .str _, .bool _, _, _, h | .str _, .num _, _, _, h
  | .str _, .arr _, _, _, h | .str _, .obj _, _, _, h => by simp [JVal.same] at h
  | .arr _, .null, _, _, h | .arr _, .bool _, _, _, h | .arr _, .num _, _, _, h
  | .arr _, .str _, _, _, h | .arr _, .obj _, _, _, h => by simp [JVal.same] at h
  | .obj _, .null, _, _, h | .obj _, .bool _, _, _, h | .obj _, .num _, _, _, h
  | .obj _, .str _, _, _, h | .obj _, .arr _, _, _, h => by simp [JVal.same] at h
/-- Slices of well-formed values denoting the same values are deeply equal. -/
theorem deepEqualSlice_of_same :
    ∀ (xs ys : List JVal), wfSlice xs = true → wfSlice ys = true → sameSlice xs ys →
      deepEqualSlice xs ys = true
  | [], [], _, _, _ => by simp [deepEqualSlice]
  | [], _ :: _, _, _, h => by simp [sameSlice] at h
  | _ :: _, [], _, _, h => by simp [sameSlice] at h
  | x :: xs, y :: ys, ha, hb, h => by
    simp only [wfSlice, Bool.and_eq_true] at ha hb
    simp only [sameSlice] at h
    simp only [deepEqualSlice, Bool.and_eq_true]
    exact ⟨deepEqual_of_same x y ha.1 hb.1 h.1, deepEqualSlice_of_same xs ys ha.2 hb.2 h.2⟩
/-- Every entry of `r` has its counterpart of `r2` among the entries of `m2`, so the
loop over the first map succeeds against `m2`. -/
theorem deepEqualMap_of_same :
    ∀ (r r2 m2 : List (String × JVal)), wfEntries r = true →
      (m2.map Prod.fst).Nodup → wfEntries m2 = true → sameEntries r r2 →
      (∀ p, p ∈ r2 → p ∈ m2) → deepEqualMap r m2 = true
  | [], _, _, _, _, _, _, _ => by simp [deepEqualMap]
  | _ :: _, [], _, _, _, _, h, _ => by simp [sameEntries] at h
  | (k, v) :: r, (k2, w) :: r2, m2, ha, hn, hb, h, hsub => by
    simp only [wfEntries, Bool.and_eq_true] at ha
    simp only [sameEntries] at h
    obtain ⟨hk, hvw, hrest⟩ := h
    subst hk
    have hmem : (k, w) ∈ m2 := hsub (k, w) (List.mem_cons_self _ _)
    have hl : m2.lookup k = some w := lookup_of_mem m2 k w hn hmem
    simp only [deepEqualMap, hl, Bool.and_eq_true]
    refine ⟨deepEqual_of_same v w ha.1 (wf_of_mem m2 k w hb hmem) hvw, ?_⟩
    exact deepEqualMap_of_same r r2 m2 ha.2 hn hb hrest
      (fun p hp => hsub p (List.mem_cons_of_mem _ hp))
end

/-- C1: whenever `old` and `new` both decode, to well-formed values that denote the
same structural value (equal up to the order in which the entries of each object are
listed), `suppressSameJsonDiff` returns true, whatever the key `k`, the resource data
`d` and the decoder are. -/
theorem suppressSameJsonDiff_same_value {δ : Type} (unmarshal : String → Option JVal)
    (k oldo newo : String) (d : δ) (a b : JVal)
    (hold : unmarshal oldo = some a) (hnew : unmarshal newo = some b)
    (ha : a.wf = true) (hb : b.wf = true) (hsame : JVal.same a b) :
    suppressSameJsonDiff unmarshal k oldo newo d = true := by
  unfold suppressSameJsonDiff
  split
  · rfl
  · simp only [hold, hnew]
    exact deepEqual_of_same a b ha hb hsame

/-- C1 at two texts of one object that differ in white space, key order and the
spelling of a number. -/
theorem suppressSameJsonDiff_same_value_witness :
    suppressSameJsonDiff sampleUnmarshal "extra"
      "\x7b\"a\":1,\"b\":[true,null]\x7d" "\x7b \"b\": [true, null], \"a\": 1.0 \x7d" () = true :=
  suppressSameJsonDiff_same_value sampleUnmarshal "extra" _ _ ()
    (.obj [("a", .num 1), ("b", .arr [.bool true, .null])])
    (.obj [("b", .arr [.bool true, .null]), ("a", .num 1)])
    (by rfl) (by rfl) (by decide) (by decide)
    ⟨[("a", .num 1), ("b", .arr [.bool true, .null])],
      ⟨rfl, rfl, rfl, ⟨rfl, trivial, trivial⟩, trivial⟩, List.Perm.swap _ _ _⟩

/-- A connection Read makes exactly one remote call, the fetch of `d.Id`. -/
theorem resourceConnectionRead_calls (m : ApiClient) (log : List Call) (d : ConnectionData) :
    (resourceConnectionRead m log d).calls = log ++ [Call.GetConnection d.Id] := by
  unfold resourceConnectionRead
  simp only
  split
  · rfl
  · split <;> rfl

/-- On a value in the signed 32-bit range the conversion `int32` changes nothing. -/
theorem int32_of_range (n : Int) (h1 : -2147483648 ≤ n) (h2 : n ≤ 2147483647) :
    int32 n = n := by
  unfold int32
  omega

/-- What `GetOk` reports on a string attribute set to a non-empty value. -/
theorem GetOkString_some (v : String) (h : v ≠ "") : GetOkString (some v) = (v, true) := by
  simp [GetOkString, h]

/-- On an attribute that is not set, or set to the empty string, `GetOk` reports
false. -/
theorem GetOkString_absent (f : Option String) (h : f = none ∨ f = some "") :
    (GetOkString f).2 = false := by
  rcases h with h | h <;> simp [GetOkString, h]

/-- What `GetOk` reports on an int attribute set to a non-zero value. -/
theorem GetOkInt_some (p : Int) (h : p ≠ 0) : GetOkInt (some p) = (p, true) := by
  simp [GetOkInt, h]

/-- On an int attribute that is not set, or set to zero, `GetOk` reports false. -/
theorem GetOkInt_absent (f : Option Int) (h : f = none ∨ f = some 0) :
    (GetOkInt f).2 = false := by
  rcases h with h | h <;> simp [GetOkInt, h]

/-- The update body, field by field. -/
theorem connectionUpdateBody_eq (d : ConnectionData) :
    connectionUpdateBody d =
      { ConnectionId := d.Id
        ConnType := GetString d.conn_type
        Description :=
          if (GetOkString d.description).2 then .value (GetOkString d.description).1 else .null
        Host := if (GetOkString d.host).2 then .value (GetOkString d.host).1 else .null
        Login := if (GetOkString d.login).2 then .value (GetOkString d.login).1 else .null
        Schema := if (GetOkString d.schema).2 then .value (GetOkString d.schema).1 else .null
        Port := if (GetOkInt d.port).2 then .value (int32 (GetOkInt d.port).1) else .null
        Password :=
          if (GetOkString d.password).2 && (GetOkString d.password).1 != "" then
            .value (GetOkString d.password).1
          else .unset
        Extra := if (GetOkString d.extra).2 then .value (GetOkString d.extra).1 else .null } := by
  unfold connectionUpdateBody
  simp only
  generalize (GetOkString d.host).2 = b1
  generalize (GetOkString d.description).2 = b2
  generalize (GetOkString d.login).2 = b3
  generalize (GetOkString d.schema).2 = b4
  generalize (GetOkInt d.port).2 = b5
  generalize ((GetOkString d.password).2 && (GetOkString d.password).1 != "") = b6
  generalize (GetOkString d.extra).2 = b7
  cases b1 <;> cases b2 <;> cases b3 <;> cases b4 <;> cases b5 <;> cases b6 <;> cases b7 <;> rfl

/-- C2: the first call `resourceConnectionUpdate` makes is the update of `d.Id`, and
its body is determined by the desired state `d`: connection id (`d.Id`) and
`conn_type` are always set; each of host, description, login, schema, port and extra
carries the desired value when the field is present and an explicit null (not
`unset`, which is a field that is not sent) when it is absent; and the password is
included exactly when it is present and non-empty, and is not sent otherwise. A field
is present when it is set to a value other than the zero value of its type, which is
what the SDK's `GetOk` reports. The port goes through `int32`, which changes no value
of the signed 32-bit range. -/
theorem resourceConnectionUpdate_payload (m : ApiClient) (log : List Call)
    (d : ConnectionData) :
    ∃ body rest,
      (resourceConnectionUpdate m log d).calls
        = log ++ Call.PatchConnection d.Id body :: rest ∧
      body.ConnectionId = d.Id ∧ body.ConnType = GetString d.conn_type ∧
      (∀ v, d.host = some v → v ≠ "" → body.Host = .value v) ∧
      (d.host = none ∨ d.host = some "" → body.Host = .null) ∧
      (∀ v, d.description = some v → v ≠ "" → body.Description = .value v) ∧
      (d.description = none ∨ d.description = some "" → body.Description = .null) ∧
      (∀ v, d.login = some v → v ≠ "" → body.Login = .value v) ∧
      (d.login = none ∨ d.login = some "" → body.Login = .null) ∧
      (∀ v, d.schema = some v → v ≠ "" → body.Schema = .value v) ∧
      (d.schema = none ∨ d.schema = some "" → body.Schema = .null) ∧
      (∀ p, d.port = some p → p ≠ 0 → body.Port = .value (int32 p) ∧
        (-2147483648 ≤ p → p ≤ 2147483647 → body.Port = .value p)) ∧
      (d.port = none ∨ d.port = some 0 → body.Port = .null) ∧
      (∀ v, d.extra = some v → v ≠ "" → body.Extra = .value v) ∧
      (d.extra = none ∨ d.extra = some "" → body.Extra = .null) ∧
      (∀ v, d.password = some v → v ≠ "" → body.Password = .value v) ∧
      (d.password = none ∨ d.password = some "" → body.Password = .unset) := by
  refine ⟨connectionUpdateBody d, (match (m.PatchConnection log d.Id
      (connectionUpdateBody d)).err with
    | some _ => []
    | none => [Call.GetConnection d.Id]), ?_, ?_⟩
  · unfold resourceConnectionUpdate
    simp only
    split
    · next h => simp [h]
    · next h => simp [h, resourceConnectionRead_calls]
  · rw [connectionUpdateBody_eq]
    refine ⟨rfl, rfl, ?_, ?_, ?_, ?_, ?_, ?_, ?_, ?_, ?_, ?_, ?_, ?_, ?_, ?_⟩
    · intro v hv hne; simp [hv, GetOkString_some v hne]
    · intro h; simp [GetOkString_absent _ h]
    · intro v hv hne; simp [hv, GetOkString_some v hne]
    · intro h; simp [GetOkString_absent _ h]
    · intro v hv hne; simp [hv, GetOkString_some v hne]
    · intro h; simp [GetOkString_absent _ h]
    · intro v hv hne; simp [hv, GetOkString_some v hne]
    · intro h; simp [GetOkString_absent _ h]
    · intro p hp hne
      refine ⟨by simp [hp, GetOkInt_some p hne], fun h1 h2 => ?_⟩
      simp [hp, GetOkInt_some p hne, int32_of_range p h1 h2]
    · intro h; simp [GetOkInt_absent _ h]
    · intro v hv hne; simp [hv, GetOkString_some v hne]
    · intro h; simp [GetOkString_absent _ h]
    · intro v hv hne; simp [hv, GetOkString_some v hne, hne]
    · intro h; simp [GetOkString_absent _ h]

/-- C2 at the desired connection `connC1` (host `h`, nothing else specified): the
body carries the host, an explicit null for login and port, and no password. -/
theorem resourceConnectionUpdate_payload_witness :
    ∃ body rest,
      (resourceConnectionUpdate okClient [] connC1).calls
        = [] ++ Call.PatchConnection "c1" body :: rest ∧
      body.Host = .value "h" ∧ body.Login = .null ∧ body.Port = .null ∧
      body.Password = .unset := by
  obtain ⟨body, rest, hc, _, _, hh, _, _, _, _, hl, _, _, _, hp, _, _, _, hpw⟩ :=
    resourceConnectionUpdate_payload okClient [] connC1
  exact ⟨body, rest, hc, hh "h" rfl (by decide), hl (Or.inl rfl), hp (Or.inl rfl),
    hpw (Or.inl rfl)⟩

/-- A variable Read makes exactly one remote call, the fetch of `d.Id`. -/
theorem resourceVariableRead_calls (m : ApiClient) (log : List Call) (d : VariableData) :
    (resourceVariableRead m log d).calls = log ++ [Call.GetVariable d.Id] := by
  unfold resourceVariableRead
  simp only
  split
  · rfl
  · split
    · split <;> rfl
    · split <;> rfl

/-- A pool Read makes exactly one remote call, the fetch of `d.Id`. -/
theorem resourcePoolRead_calls (m : ApiClient) (log : List Call) (d : PoolData) :
    (resourcePoolRead m log d).calls = log ++ [Call.GetPool d.Id] := by
  unfold resourcePoolRead
  simp only
  split
  · rfl
  · split
    · rfl
    · split <;> rfl

/-- C3 (the code at the claim's example): desired `{key: "k", value: "v2"}` with no
description. The body of the update carries the value `v2` and leaves the description
unset, that is not sent; it is not the explicit null the claim asks for. -/
theorem resourceVariableUpdate_omits_description :
    (resourceVariableUpdate okClient [] varKV2).calls
      = [Call.PatchVariable "k" ⟨"k", "v2", .unset⟩, Call.GetVariable "k"] ∧
    (⟨"k", "v2", .unset⟩ : VariableBody) ≠ ⟨"k", "v2", .null⟩ := by
  decide

/-- C4 as stated fails: on `conflictUpdateFailsClient` the create of pool `p` with 5
slots answers 409 with the client's error, the fetch succeeds and returns `p` with 3
slots, and the one update call fails. Create then returns the update's error: its
last remote call is the update, and no Read follows. -/
theorem resourcePoolCreate_failed_update_no_read :
    (conflictUpdateFailsClient.PostPool [] ⟨"p", 5⟩).err = some "409 Conflict" ∧
    respIs (conflictUpdateFailsClient.PostPool [] ⟨"p", 5⟩).resp 409 = true ∧
    (conflictUpdateFailsClient.GetPool [Call.PostPool ⟨"p", 5⟩] "p").err = none ∧
    (conflictUpdateFailsClient.GetPool [Call.PostPool ⟨"p", 5⟩] "p").val
      = some ⟨"p", 3, 0, 0, 3, 0⟩ ∧
    resourcePoolCreate conflictUpdateFailsClient [] poolP5
      = ⟨[Call.PostPool ⟨"p", 5⟩, Call.GetPool "p", Call.PatchPool "p" ⟨.value 5⟩ ["slots"]],
         .returned ["failed to update pool `p` from Airflow: 500 Internal Server Error"]
           { poolP5 with Id := "p" }⟩ ∧
    (resourcePoolCreate conflictUpdateFailsClient [] poolP5).calls.getLast?
      ≠ some (Call.GetPool "p") := by
  decide

/-- C4, amended: for a desired pool whose slots are in the signed 32-bit range, when
the create fails with a 409 response and the fetch of the pool by name succeeds,
`resourcePoolCreate` adopts the fetched pool's name as identifier and goes on as
follows. If the fetched slots equal the desired slots it makes no update call and is
the Read of the adopted identifier: one more call, the fetch. If they differ it makes
exactly one update call, of the adopted identifier, with slots set to the desired
value and update mask `slots`; when that call succeeds it finishes with the Read, and
when that call fails it returns the error with no further call. -/
theorem resourcePoolCreate_conflict (m : ApiClient) (log : List Call) (d : PoolData)
    (err : String) (existingPool : PoolResponse)
    (hlo : -2147483648 ≤ GetInt d.slots) (hhi : GetInt d.slots ≤ 2147483647)
    (hpost : (m.PostPool log ⟨GetString d.name, GetInt d.slots⟩).err = some err)
    (h409 : respIs (m.PostPool log ⟨GetString d.name, GetInt d.slots⟩).resp 409 = true)
    (hgetErr : (m.GetPool (log ++ [Call.PostPool ⟨GetString d.name, GetInt d.slots⟩])
      (GetString d.name)).err = none)
    (hgetVal : (m.GetPool (log ++ [Call.PostPool ⟨GetString d.name, GetInt d.slots⟩])
      (GetString d.name)).val = some existingPool) :
    (existingPool.Slots = GetInt d.slots →
      resourcePoolCreate m log d
        = resourcePoolRead m
            (log ++ [Call.PostPool ⟨GetString d.name, GetInt d.slots⟩,
              Call.GetPool (GetString d.name)])
            { d with Id := existingPool.Name } ∧
      (resourcePoolCreate m log d).calls
        = log ++ [Call.PostPool ⟨GetString d.name, GetInt d.slots⟩,
            Call.GetPool (GetString d.name), Call.GetPool existingPool.Name]) ∧
    (existingPool.Slots ≠ GetInt d.slots →
      (∀ e, (m.PatchPool
            (log ++ [Call.PostPool ⟨GetString d.name, GetInt d.slots⟩,
              Call.GetPool (GetString d.name)])
            existingPool.Name ⟨.value (GetInt d.slots)⟩ ["slots"]).err = some e →
        resourcePoolCreate m log d
          = ⟨log ++ [Call.PostPool ⟨GetString d.name, GetInt d.slots⟩,
              Call.GetPool (GetString d.name),
              Call.PatchPool existingPool.Name ⟨.value (GetInt d.slots)⟩ ["slots"]],
             .returned (Errorf ("failed to update pool `" ++ existingPool.Name ++
               "` from Airflow: " ++ e)) { d with Id := existingPool.Name }⟩) ∧
      ((m.PatchPool
            (log ++ [Call.PostPool ⟨GetString d.name, GetInt d.slots⟩,
              Call.GetPool (GetString d.name)])
            existingPool.Name ⟨.value (GetInt d.slots)⟩ ["slots"]).err = none →
        resourcePoolCreate m log d
          = resourcePoolRead m
              (log ++ [Call.PostPool ⟨GetString d.name, GetInt d.slots⟩,
                Call.GetPool (GetString d.name),
                Call.PatchPool existingPool.Name ⟨.value (GetInt d.slots)⟩ ["slots"]])
              { d with Id := existingPool.Name } ∧
        (resourcePoolCreate m log d).calls
          = log ++ [Call.PostPool ⟨GetString d.name, GetInt d.slots⟩,
              Call.GetPool (GetString d.name),
              Call.PatchPool existingPool.Name ⟨.value (GetInt d.slots)⟩ ["slots"],
              Call.GetPool existingPool.Name])) := by
  have hr : int32 (GetInt d.slots) = GetInt d.slots := int32_of_range _ hlo hhi
  have hcreate : resourcePoolCreate m log d
      = if existingPool.Slots != GetInt d.slots then
          resourcePoolUpdate m
            (log ++ [Call.PostPool ⟨GetString d.name, GetInt d.slots⟩,
              Call.GetPool (GetString d.name)]) { d with Id := existingPool.Name }
        else
          resourcePoolRead m
            (log ++ [Call.PostPool ⟨GetString d.name, GetInt d.slots⟩,
              Call.GetPool (GetString d.name)]) { d with Id := existingPool.Name } := by
    unfold resourcePoolCreate
    simp only [hr, hpost, h409, hgetErr, hgetVal, if_true, List.append_assoc,
      List.singleton_append]
  refine ⟨fun heq => ?_, fun hne => ⟨fun e he => ?_, fun hnone => ?_⟩⟩
  · have : (existingPool.Slots != GetInt d.slots) = false := by simp [heq]
    rw [hcreate, this]
    simp [resourcePoolRead_calls]
  · have : (existingPool.Slots != GetInt d.slots) = true := by simp [hne]
    rw [hcreate, this]
    simp only [if_true]
    unfold resourcePoolUpdate
    simp only [hr, he]
    simp
  · have : (existingPool.Slots != GetInt d.slots) = true := by simp [hne]
    rw [hcreate, this]
    simp only [if_true]
    unfold resourcePoolUpdate
    simp only [hr, hnone, resourcePoolRead_calls]
    simp

/-- C4 amended, at the desired pool `p` with 5 slots on `conflictClient`, which holds
`p` with 3 slots: create, fetch, one update to 5 slots, and the Read. -/
theorem resourcePoolCreate_conflict_witness :
    (resourcePoolCreate conflictClient [] poolP5).calls
      = [] ++ [Call.PostPool ⟨"p", 5⟩, Call.GetPool "p",
          Call.PatchPool "p" ⟨.value 5⟩ ["slots"], Call.GetPool "p"] :=
  (((resourcePoolCreate_conflict conflictClient [] poolP5 "409 Conflict" ⟨"p", 3, 0, 0, 3, 0⟩
    (by decide) (by decide) rfl rfl rfl rfl).2 (by decide)).2 rfl).2

/-- C5 (the code at a failing input): the desired variable `k` with value `v` and no
description is what the remote already holds. The create answers 409, the fetch
returns the identical variable, and yet an update call is made, because the fetched
value `v` is compared with the desired key `k`. -/
theorem resourceVariableCreate_updates_identical :
    (conflictClient.GetVariable [Call.PostVariable ⟨"k", "v", .unset⟩] "k").val
      = some ⟨"k", "v", .unset⟩ ∧
    GetString varKV.value = "v" ∧ varKV.description = none ∧
    (resourceVariableCreate conflictClient [] varKV).calls
      = [Call.PostVariable ⟨"k", "v", .unset⟩, Call.GetVariable "k",
          Call.PatchVariable "k" ⟨"k", "v", .unset⟩, Call.GetVariable "k"] := by
  decide

/-- C6 (the code at a failing input): on a remote that answers the delete with status
404 and the error the client returns for it, each of the three Delete operations
returns an error diagnostic, not success: the error is tested before the status. -/
theorem delete_not_found_returns_error :
    respIs (notFoundClient.DeleteConnection [] "c1").resp 404 = true ∧
    resourceConnectionDelete notFoundClient [] connC1
      = ⟨[Call.DeleteConnection "c1"],
         .returned ["failed to delete connection `c1` from Airflow: 404 Not Found"] connC1⟩ ∧
    resourceVariableDelete notFoundClient [] varKV2
      = ⟨[Call.DeleteVariable "k"],
         .returned ["failed to delete variable `k`, Status: `404 Not Found` from Airflow: 404 Not Found"]
           varKV2⟩ ∧
    resourcePoolDelete notFoundClient [] { poolP5 with Id := "p" }
      = ⟨[Call.DeletePool "p"],
         .returned ["failed to delete pool `p` from Airflow: 404 Not Found"]
           { poolP5 with Id := "p" }⟩ := by
  decide

/-- C7: `resourcePoolDelete` on the identifier `default_pool` returns success with the
resource data untouched and makes no remote call, whatever the desired state and the
transport; on every other identifier it makes exactly one remote call, the delete of
that identifier. -/
theorem resourcePoolDelete_default_pool (m : ApiClient) (log : List Call) (d : PoolData) :
    (d.Id = "default_pool" → resourcePoolDelete m log d = ⟨log, .returned [] d⟩) ∧
    (d.Id ≠ "default_pool" →
      (resourcePoolDelete m log d).calls = log ++ [Call.DeletePool d.Id]) := by
  unfold resourcePoolDelete
  refine ⟨fun h => by simp [h], fun h => ?_⟩
  have : (d.Id == "default_pool") = false := by simpa using h
  simp only [this, Bool.false_eq_true, if_false]
  split
  · rfl
  · split <;> rfl

/-- C7 on `notFoundClient`, whose delete fails: nothing is called for `default_pool`,
and exactly the delete is called for `p`. -/
theorem resourcePoolDelete_default_pool_witness :
    resourcePoolDelete notFoundClient [] { poolP5 with Id := "default_pool" }
      = ⟨[], .returned [] { poolP5 with Id := "default_pool" }⟩ ∧
    (resourcePoolDelete notFoundClient [] { poolP5 with Id := "p" }).calls
      = [] ++ [Call.DeletePool "p"] :=
  ⟨(resourcePoolDelete_default_pool notFoundClient [] { poolP5 with Id := "default_pool" }).1 rfl,
   (resourcePoolDelete_default_pool notFoundClient [] { poolP5 with Id := "p" }).2 (by decide)⟩

/-- C8: for each of the four kinds, when the fetch made by Read comes back with a
response of status 404, with or without an error, Read returns no diagnostics, sets
the identifier to the empty string and leaves every other field as it was; the fetch is
its only call. -/
theorem read_not_found (m : ApiClient) (log : List Call) :
    (∀ (d : ConnectionData) (r : HttpResponse),
      (m.GetConnection log d.Id).resp = some r → r.StatusCode = 404 →
      resourceConnectionRead m log d
        = ⟨log ++ [Call.GetConnection d.Id], .returned [] { d with Id := "" }⟩) ∧
    (∀ (d : DagData) (r : HttpResponse),
      (m.GetDag log d.Id).resp = some r → r.StatusCode = 404 →
      resourceDagRead m log d
        = ⟨log ++ [Call.GetDag d.Id], .returned [] { d with Id := "" }⟩) ∧
    (∀ (d : PoolData) (r : HttpResponse),
      (m.GetPool log d.Id).resp = some r → r.StatusCode = 404 →
      resourcePoolRead m log d
        = ⟨log ++ [Call.GetPool d.Id], .returned [] { d with Id := "" }⟩) ∧
    (∀ (d : VariableData) (r : HttpResponse),
      (m.GetVariable log d.Id).resp = some r → r.StatusCode = 404 →
      resourceVariableRead m log d
        = ⟨log ++ [Call.GetVariable d.Id], .returned [] { d with Id := "" }⟩) := by
  refine ⟨fun d r h1 h2 => ?_, fun d r h1 h2 => ?_, fun d r h1 h2 => ?_, fun d r h1 h2 => ?_⟩
  · unfold resourceConnectionRead
    simp [respIs, h1, h2]
  · unfold resourceDagRead
    simp [respIs, h1, h2]
  · unfold resourcePoolRead
    simp [respIs, h1, h2]
  · unfold resourceVariableRead
    simp [respIs, h1, h2]

/-- C8 on `notFoundClient`, whose 404 comes with an error: the Read of connection `c1`
and of DAG `dag1` succeed and clear the identifier only. -/
theorem read_not_found_witness :
    resourceConnectionRead notFoundClient [] connC1
      = ⟨[] ++ [Call.GetConnection "c1"], .returned [] { connC1 with Id := "" }⟩ ∧
    resourceDagRead notFoundClient [] dagD1
      = ⟨[] ++ [Call.GetDag "dag1"], .returned [] { dagD1 with Id := "" }⟩ :=
  ⟨(read_not_found notFoundClient []).1 connC1 ⟨404, "404 Not Found"⟩ rfl rfl,
   (read_not_found notFoundClient []).2.1 dagD1 ⟨404, "404 Not Found"⟩ rfl rfl⟩

/-- The calls of a connection Update: the update of `d.Id` with the body built from
`d`, then the fetch of the Read when the update succeeded. -/
theorem resourceConnectionUpdate_calls (m : ApiClient) (log : List Call) (d : ConnectionData) :
    (resourceConnectionUpdate m log d).calls
      = log ++ Call.PatchConnection d.Id (connectionUpdateBody d) ::
          (match (m.PatchConnection log d.Id (connectionUpdateBody d)).err with
           | some _ => []
           | none => [Call.GetConnection d.Id]) := by
  unfold resourceConnectionUpdate
  simp only
  split
  · next h => simp [h]
  · next h => simp [h, resourceConnectionRead_calls]

/-- The first call of a connection Create is the create, with the body built from `d`. -/
theorem resourceConnectionCreate_calls (m : ApiClient) (log : List Call) (d : ConnectionData) :
    ∃ rest, (resourceConnectionCreate m log d).calls
      = log ++ Call.PostConnection (connectionCreateBody d) :: rest := by
  unfold resourceConnectionCreate
  simp only
  split
  · split
    · split
      · exact ⟨[Call.GetConnection (GetString d.connection_id)], by simp⟩
      · split
        · exact ⟨[Call.GetConnection (GetString d.connection_id)], by simp⟩
        · exact ⟨_, by rw [resourceConnectionUpdate_calls]; simp; rfl⟩
    · exact ⟨[], rfl⟩
  · exact ⟨_, by rw [resourceConnectionRead_calls]; simp; rfl⟩

/-- C9: for Connection, Pool and Variable, when the create fails and its response has
a status other than 409 (for a variable, neither the code nor the status text is
that of a 409), or when it fails with status 409 and the fetch of the existing object
fails, Create returns one error diagnostic and the resource data exactly as it
received it: no identifier is assigned and no field is changed. The only remote calls
are the create and, in the second case, the fetch: no update and no Read. -/
theorem create_failure_keeps_state (m : ApiClient) (log : List Call) :
    (∀ (d : ConnectionData) (err : String) (r : HttpResponse),
      (m.PostConnection log (connectionCreateBody d)).err = some err →
      (m.PostConnection log (connectionCreateBody d)).resp = some r →
      r.StatusCode ≠ 409 →
      resourceConnectionCreate m log d
        = ⟨log ++ [Call.PostConnection (connectionCreateBody d)],
           .returned (Errorf ("failed to create connection `" ++ GetString d.connection_id ++
             "` from Airflow: " ++ err)) d⟩) ∧
    (∀ (d : ConnectionData) (err getErr : String) (r : HttpResponse),
      (m.PostConnection log (connectionCreateBody d)).err = some err →
      (m.PostConnection log (connectionCreateBody d)).resp = some r →
      r.StatusCode = 409 →
      (m.GetConnection (log ++ [Call.PostConnection (connectionCreateBody d)])
        (GetString d.connection_id)).err = some getErr →
      resourceConnectionCreate m log d
        = ⟨log ++ [Call.PostConnection (connectionCreateBody d),
             Call.GetConnection (GetString d.connection_id)],
           .returned (Errorf ("connection `" ++ GetString d.connection_id ++
             "` already exists, but failed to fetch it: " ++ getErr)) d⟩) ∧
    (∀ (d : PoolData) (err : String) (r : HttpResponse),
      (m.PostPool log ⟨GetString d.name, int32 (GetInt d.slots)⟩).err = some err →
      (m.PostPool log ⟨GetString d.name, int32 (GetInt d.slots)⟩).resp = some r →
      r.StatusCode ≠ 409 →
      resourcePoolCreate m log d
        = ⟨log ++ [Call.PostPool ⟨GetString d.name, int32 (GetInt d.slots)⟩],
           .returned (Errorf ("failed to create pool `" ++ GetString d.name ++
             "` from Airflow: " ++ err)) d⟩) ∧
    (∀ (d : PoolData) (err getErr : String) (r : HttpResponse),
      (m.PostPool log ⟨GetString d.name, int32 (GetInt d.slots)⟩).err = some err →
      (m.PostPool log ⟨GetString d.name, int32 (GetInt d.slots)⟩).resp = some r →
      r.StatusCode = 409 →
      (m.GetPool (log ++ [Call.PostPool ⟨GetString d.name, int32 (GetInt d.slots)⟩])
        (GetString d.name)).err = some getErr →
      resourcePoolCreate m log d
        = ⟨log ++ [Call.PostPool ⟨GetString d.name, int32 (GetInt d.slots)⟩,
             Call.GetPool (GetString d.name)],
           .returned (Errorf ("pool `" ++ GetString d.name ++
             "` already exists, but failed to fetch it: " ++ getErr)) d⟩) ∧
    (∀ (d : VariableData) (err : String) (r : HttpResponse),
      (m.PostVariable log (variableCreateBody d)).err = some err →
      (m.PostVariable log (variableCreateBody d)).resp = some r →
      r.StatusCode ≠ 409 → r.Status ≠ "409 Conflict" →
      resourceVariableCreate m log d
        = ⟨log ++ [Call.PostVariable (variableCreateBody d)],
           .returned (Errorf ("failed to create variable `" ++ GetString d.key ++
             "`, Status: `" ++ r.Status ++ "` from Airflow: " ++ err)) d⟩) ∧
    (∀ (d : VariableData) (err getErr : String) (r : HttpResponse),
      (m.PostVariable log (variableCreateBody d)).err = some err →
      (m.PostVariable log (variableCreateBody d)).resp = some r →
      r.StatusCode = 409 →
      (m.GetVariable (log ++ [Call.PostVariable (variableCreateBody d)]) (GetString d.key)).err = some getErr →
      resourceVariableCreate m log d
        = ⟨log ++ [Call.PostVariable (variableCreateBody d), Call.GetVariable (GetString d.key)],
           .returned (Errorf ("variable `" ++ GetString d.key ++
             "` already exists, but failed to fetch it: " ++ getErr)) d⟩) := by
  refine ⟨?_, ?_, ?_, ?_, ?_, ?_⟩
  · intro d err r h1 h2 h3
    unfold resourceConnectionCreate
    simp [h1, h2, h3, respIs]
  · intro d err getErr r h1 h2 h3 h4
    unfold resourceConnectionCreate
    simp [h1, h2, h3, h4, respIs]
  · intro d err r h1 h2 h3
    unfold resourcePoolCreate
    simp [h1, h2, h3, respIs]
  · intro d err getErr r h1 h2 h3 h4
    unfold resourcePoolCreate
    simp [h1, h2, h3, h4, respIs]
  · intro d err r h1 h2 h3 h4
    unfold resourceVariableCreate
    simp [h1, h2, h3, h4]
  · intro d err getErr r h1 h2 h3 h4
    unfold resourceVariableCreate
    simp [h1, h2, h3, h4]

/-- C9 at three failures: the create of connection `c1` answers 500; the create of
pool `p` answers 409 and the fetch fails; the create of variable `k` answers 409 and
the fetch fails. Each returns an error and the resource data it received. -/
theorem create_failure_keeps_state_witness :
    resourceConnectionCreate createFailsClient [] connC1
      = ⟨[] ++ [Call.PostConnection (connectionCreateBody connC1)],
         .returned (Errorf ("failed to create connection `" ++ GetString connC1.connection_id ++
           "` from Airflow: " ++ "500 Internal Server Error")) connC1⟩ ∧
    resourcePoolCreate conflictFetchFailsClient [] poolP5
      = ⟨[] ++ [Call.PostPool ⟨GetString poolP5.name, int32 (GetInt poolP5.slots)⟩,
           Call.GetPool (GetString poolP5.name)],
         .returned (Errorf ("pool `" ++ GetString poolP5.name ++
           "` already exists, but failed to fetch it: " ++ "500 Internal Server Error")) poolP5⟩ ∧
    resourceVariableCreate conflictFetchFailsClient [] varKV
      = ⟨[] ++ [Call.PostVariable (variableCreateBody varKV), Call.GetVariable (GetString varKV.key)],
         .returned (Errorf ("variable `" ++ GetString varKV.key ++
           "` already exists, but failed to fetch it: " ++ "500 Internal Server Error")) varKV⟩ :=
  ⟨(create_failure_keeps_state createFailsClient []).1 connC1 "500 Internal Server Error"
      ⟨500, "500 Internal Server Error"⟩ rfl rfl (by decide),
   (create_failure_keeps_state conflictFetchFailsClient []).2.2.2.1 poolP5 "409 Conflict"
      "500 Internal Server Error" ⟨409, "409 Conflict"⟩ rfl rfl rfl rfl,
   (create_failure_keeps_state conflictFetchFailsClient []).2.2.2.2.2 varKV "409 Conflict"
      "500 Internal Server Error" ⟨409, "409 Conflict"⟩ rfl rfl rfl rfl⟩

/-- The create body, field by field. -/
theorem connectionCreateBody_eq (d : ConnectionData) :
    connectionCreateBody d =
      { ConnectionId := GetString d.connection_id
        ConnType := GetString d.conn_type
        Description :=
          if (GetOkString d.description).2 then .value (GetOkString d.description).1 else .unset
        Host := if (GetOkString d.host).2 then .value (GetOkString d.host).1 else .unset
        Login := if (GetOkString d.login).2 then .value (GetOkString d.login).1 else .unset
        Schema := if (GetOkString d.schema).2 then .value (GetOkString d.schema).1 else .unset
        Port := if (GetOkInt d.port).2 then .value (int32 (GetOkInt d.port).1) else .unset
        Password := .value (GetString d.password)
        Extra := if (GetOkString d.extra).2 then .value (GetOkString d.extra).1 else .unset } := by
  unfold connectionCreateBody
  simp only
  generalize (GetOkString d.host).2 = b1
  generalize (GetOkString d.description).2 = b2
  generalize (GetOkString d.login).2 = b3
  generalize (GetOkString d.schema).2 = b4
  generalize (GetOkInt d.port).2 = b5
  generalize (GetOkString d.extra).2 = b7
  cases b1 <;> cases b2 <;> cases b3 <;> cases b4 <;> cases b5 <;> cases b7 <;> rfl

/-- C10 (the code at a failing input): the desired connection `connC1` leaves the
password unspecified, and the body `resourceConnectionCreate` sends has the password
set, to the empty string, where the claim has it omitted. The other unspecified
fields of the same body are left unset, and at the same desired state the body of
`resourceConnectionUpdate` carries no password. -/
theorem resourceConnectionCreate_sends_empty_password :
    connC1.password = none ∧
    (resourceConnectionCreate okClient [] connC1).calls.head?
      = some (Call.PostConnection
          ⟨"c1", "http", .unset, .value "h", .unset, .unset, .unset, .value "", .unset⟩) ∧
    (Nullable.value "" : Nullable String) ≠ .unset ∧
    (connectionUpdateBody connC1).Password = .unset := by
  decide

/-- Dropping by a weaker test stops where dropping by a stronger one does, when
the element it stops at fails the weaker test too. -/
theorem dropWhile_eq_of_imp {α : Type} (p q : α → Bool) (hpq : ∀ c, p c = true → q c = true) :
    ∀ (l : List α) (x : α) (xs : List α), l.dropWhile p = x :: xs → q x = false →
      l.dropWhile q = x :: xs
  | [], _, _, h, _ => by simp at h
  | a :: l, x, xs, h, hx => by
    by_cases ha : p a = true
    · rw [List.dropWhile_cons_of_pos ha] at h
      rw [List.dropWhile_cons_of_pos (hpq a ha)]
      exact dropWhile_eq_of_imp p q hpq l x xs h hx
    · rw [List.dropWhile_cons_of_neg ha] at h
      cases h
      rw [List.dropWhile_cons_of_neg (by simp [hx])]

/-- Trimming by a weaker test gives what trimming by a stronger one gives, when the
result of the latter begins and ends with elements that fail the weaker test. -/
theorem trim_eq_of_imp {α : Type} (p q : α → Bool) (hpq : ∀ c, p c = true → q c = true)
    (l : List α) (c c2 : α)
    (hfirst : ((l.dropWhile p).reverse.dropWhile p).reverse.head? = some c)
    (hc : q c = false)
    (hlast : ((l.dropWhile p).reverse.dropWhile p).reverse.getLast? = some c2)
    (hc2 : q c2 = false) :
    ((l.dropWhile q).reverse.dropWhile q).reverse
      = ((l.dropWhile p).reverse.dropWhile p).reverse := by
  rw [List.getLast?_reverse] at hlast
  obtain ⟨r, hr⟩ : ∃ r, (l.dropWhile p).reverse.dropWhile p = c2 :: r := by
    cases h : (l.dropWhile p).reverse.dropWhile p with
    | nil => simp [h] at hlast
    | cons a r => simp [h] at hlast; exact ⟨r, by rw [hlast]⟩
  have h2 : (l.dropWhile p).reverse.dropWhile q = c2 :: r :=
    dropWhile_eq_of_imp p q hpq _ c2 r hr hc2
  have hsuf : ((l.dropWhile p).reverse.dropWhile p) <:+ (l.dropWhile p).reverse :=
    List.dropWhile_suffix p
  have hpre : ((l.dropWhile p).reverse.dropWhile p).reverse <+: l.dropWhile p := by
    have := List.reverse_prefix.mpr hsuf
    simpa using this
  obtain ⟨z, hz⟩ := hpre
  obtain ⟨xs, hxs⟩ : ∃ xs, l.dropWhile p = c :: xs := by
    cases h : ((l.dropWhile p).reverse.dropWhile p).reverse with
    | nil => simp [h] at hfirst
    | cons a t =>
      simp [h] at hfirst
      rw [h] at hz
      exact ⟨t ++ z, by rw [← hz, hfirst]; rfl⟩
  have h1 : l.dropWhile q = l.dropWhile p := by
    rw [hxs]
    exact dropWhile_eq_of_imp p q hpq l c xs hxs hc
  rw [h1, h2, hr]

/-- JSON white space is white space for `strings.TrimSpace`. -/
theorem isSpace_of_isJSONSpace (c : Char) (h : isJSONSpace c = true) : isSpace c = true := by
  simp only [isJSONSpace, Bool.or_eq_true, beq_iff_eq] at h
  simp only [isSpace, Bool.or_eq_true, beq_iff_eq]
  rcases h with ((h | h) | h) | h <;> simp [h]

/-- No character that begins a JSON value is white space. -/
theorem isSpace_of_isValueStart (c : Char) (h : isValueStart c = true) : isSpace c = false := by
  simp only [isValueStart, List.contains_eq_any_beq, List.any_cons, List.any_nil,
    Bool.or_false, Bool.or_eq_true, beq_iff_eq] at h
  rcases h with h | h | h | h | h | h | h | h | h | h | h | h | h | h | h | h | h <;>
    (subst h; decide)

/-- No character that ends a JSON value is white space. -/
theorem isSpace_of_isValueEnd (c : Char) (h : isValueEnd c = true) : isSpace c = false := by
  simp only [isValueEnd, List.contains_eq_any_beq, List.any_cons, List.any_nil,
    Bool.or_false, Bool.or_eq_true, beq_iff_eq] at h
  rcases h with h | h | h | h | h | h | h | h | h | h | h | h | h | h | h <;>
    (subst h; decide)

mutual
/-- Every value denotes the same structural value as itself. -/
theorem same_refl : ∀ (a : JVal), JVal.same a a
  | .null => by simp [JVal.same]
  | .bool _ => by simp [JVal.same]
  | .num _ => by simp [JVal.same]
  | .str _ => by simp [JVal.same]
  | .arr xs => by simp only [JVal.same]; exact sameSlice_refl xs
  | .obj m => by simp only [JVal.same]; exact ⟨m, sameEntries_refl m, List.Perm.refl m⟩
/-- Every slice is, element by element, the same as itself. -/
theorem sameSlice_refl : ∀ (xs : List JVal), sameSlice xs xs
  | [] => by simp [sameSlice]
  | x :: xs => by simp only [sameSlice]; exact ⟨same_refl x, sameSlice_refl xs⟩
/-- Every entry list is, entry by entry, the same as itself. -/
theorem sameEntries_refl : ∀ (m : List (String × JVal)), sameEntries m m
  | [] => by simp [sameEntries]
  | (k, v) :: rest => by
    rw [sameEntries]
    exact ⟨rfl, same_refl v, sameEntries_refl rest⟩
end

/-- On a text the decoder accepts, `strings.TrimSpace` removes the surrounding JSON
white space and nothing else. -/
theorem TrimSpace_of_decoded (unmarshal : String → Option JVal) (hdec : IsJsonDecoder unmarshal)
    (s : String) (v : JVal) (hs : unmarshal s = some v) : TrimSpace s = trimJSONSpace s := by
  obtain ⟨c, hc, hcs⟩ := hdec.first s v hs
  obtain ⟨c2, hc2, hc2s⟩ := hdec.last s v hs
  unfold TrimSpace trimJSONSpace
  congr 1
  exact trim_eq_of_imp isJSONSpace isSpace isSpace_of_isJSONSpace s.data c c2 hc
    (isSpace_of_isValueStart c hcs) hc2 (isSpace_of_isValueEnd c2 hc2s)

/-- Texts that the decoder accepts and that are equal after `strings.TrimSpace`
decode to deeply equal values. -/
theorem deepEqual_of_TrimSpace_eq (unmarshal : String → Option JVal)
    (hdec : IsJsonDecoder unmarshal) (oldo newo : String) (a b : JVal)
    (ha : unmarshal oldo = some a) (hb : unmarshal newo = some b)
    (ht : TrimSpace oldo = TrimSpace newo) : deepEqual a b = true := by
  rw [TrimSpace_of_decoded unmarshal hdec oldo a ha,
    TrimSpace_of_decoded unmarshal hdec newo b hb] at ht
  have hab : some a = some b := by rw [← ha, ← hb]; exact hdec.surrounding oldo newo ht
  cases hab
  exact deepEqual_of_same a a (hdec.wf oldo a ha) (hdec.wf oldo a ha) (same_refl a)

/-- C11: for every decoder that behaves as a JSON decoder (`IsJsonDecoder`), every key
`k`, resource data `d` and all strings `old` and `new`, `suppressSameJsonDiff` equals
the predicate of the specification: when at least one of the two fails to parse,
whether the strings are equal after `strings.TrimSpace`; when both parse, whether the
parsed values are deeply equal. The early return of the code agrees with it because
two texts that both parse and are equal after trimming have deeply equal values
(`deepEqual_of_TrimSpace_eq`). -/
theorem suppressSameJsonDiff_eq_spec {δ : Type} (unmarshal : String → Option JVal)
    (hdec : IsJsonDecoder unmarshal) (k oldo newo : String) (d : δ) :
    suppressSameJsonDiff unmarshal k oldo newo d = sameJsonSpec unmarshal oldo newo := by
  unfold suppressSameJsonDiff sameJsonSpec
  by_cases ht : TrimSpace oldo = TrimSpace newo
  · cases ha : unmarshal oldo with
    | none => simp [ht]
    | some a =>
      cases hb : unmarshal newo with
      | none => simp [ht]
      | some b =>
        simp [ht, deepEqual_of_TrimSpace_eq unmarshal hdec oldo newo a b ha hb ht]
  · cases ha : unmarshal oldo with
    | none => simp [ht]
    | some a =>
      cases hb : unmarshal newo with
      | none => simp [ht]
      | some b => simp [ht]

/-- The sample decoder `literalUnmarshal` behaves as a JSON decoder. -/
theorem literalUnmarshal_isJsonDecoder : IsJsonDecoder literalUnmarshal where
  surrounding := by
    intro s t h
    simp only [literalUnmarshal, h]
  first := by
    intro s v h
    unfold literalUnmarshal at h
    split at h
    · next e => rw [beq_iff_eq.mp e]; exact ⟨_, rfl, by decide⟩
    · split at h
      · next e => rw [beq_iff_eq.mp e]; exact ⟨_, rfl, by decide⟩
      · split at h
        · next e => rw [beq_iff_eq.mp e]; exact ⟨_, rfl, by decide⟩
        · split at h
          · next e => rw [beq_iff_eq.mp e]; exact ⟨_, rfl, by decide⟩
          · cases h
  last := by
    intro s v h
    unfold literalUnmarshal at h
    split at h
    · next e => rw [beq_iff_eq.mp e]; exact ⟨_, rfl, by decide⟩
    · split at h
      · next e => rw [beq_iff_eq.mp e]; exact ⟨_, rfl, by decide⟩
      · split at h
        · next e => rw [beq_iff_eq.mp e]; exact ⟨_, rfl, by decide⟩
        · split at h
          · next e => rw [beq_iff_eq.mp e]; exact ⟨_, rfl, by decide⟩
          · cases h
  wf := by
    intro s v h
    unfold literalUnmarshal at h
    split at h
    · cases h; decide
    · split at h
      · cases h; decide
      · split at h
        · cases h; decide
        · split at h
          · cases h; decide
          · cases h

/-- C11 at the sample decoder, on three pairs: two texts of `null` that differ in
JSON white space (the early return, both parse); a text that does not parse because
of a no-break space against `null` (equal after trimming, so true on both sides); and
two texts of one object that differ after trimming and decode to equal values. -/
theorem suppressSameJsonDiff_eq_spec_witness :
    suppressSameJsonDiff literalUnmarshal "extra" " null\n" "null" ()
      = sameJsonSpec literalUnmarshal " null\n" "null" ∧
    suppressSameJsonDiff literalUnmarshal "extra" "\u00a0null" "null" ()
      = sameJsonSpec literalUnmarshal "\u00a0null" "null" ∧
    suppressSameJsonDiff literalUnmarshal "extra" "\x7b\"a\":1\x7d" " \x7b\"a\":1.0\x7d" ()
      = sameJsonSpec literalUnmarshal "\x7b\"a\":1\x7d" " \x7b\"a\":1.0\x7d" :=
  ⟨suppressSameJsonDiff_eq_spec literalUnmarshal literalUnmarshal_isJsonDecoder _ _ _ (),
   suppressSameJsonDiff_eq_spec literalUnmarshal literalUnmarshal_isJsonDecoder _ _ _ (),
   suppressSameJsonDiff_eq_spec literalUnmarshal literalUnmarshal_isJsonDecoder _ _ _ ()⟩

/-- C12 (the code at a failing input): on a remote that cannot be reached, where every
call returns an error and no response, the four Variable operations and the Dag
update (which is also the Dag create) and read fault: each reads `StatusCode` or
`Status` of the nil response. Of the two kinds only the Dag delete returns an error
diagnostic, as the Connection read and the Pool create do on the same transport. -/
theorem variable_dag_nil_response_faults :
    resourceVariableCreate unreachableClient [] varKV
      = ⟨[Call.PostVariable ⟨"k", "v", .unset⟩], .panicked⟩ ∧
    resourceVariableRead unreachableClient [] varKV2
      = ⟨[Call.GetVariable "k"], .panicked⟩ ∧
    resourceVariableUpdate unreachableClient [] varKV2
      = ⟨[Call.PatchVariable "k" ⟨"k", "v2", .unset⟩], .panicked⟩ ∧
    resourceVariableDelete unreachableClient [] varKV2
      = ⟨[Call.DeleteVariable "k"], .panicked⟩ ∧
    resourceDagUpdate unreachableClient [] dagD1
      = ⟨[Call.PatchDag "dag1" ⟨false⟩], .panicked⟩ ∧
    resourceDagRead unreachableClient [] dagD1
      = ⟨[Call.GetDag "dag1"], .panicked⟩ ∧
    resourceDagDelete unreachableClient [] { dagD1 with delete_dag := some true }
      = ⟨[Call.DeleteDag "dag1"],
         .returned ["failed to delete DAG `dag1` from Airflow: dial tcp: connection refused"]
           { dagD1 with delete_dag := some true }⟩ ∧
    resourceConnectionRead unreachableClient [] connC1
      = ⟨[Call.GetConnection "c1"],
         .returned ["failed to get connection `c1` from Airflow: dial tcp: connection refused"]
           connC1⟩ ∧
    resourcePoolCreate unreachableClient [] poolP5
      = ⟨[Call.PostPool ⟨"p", 5⟩],
         .returned ["failed to create pool `p` from Airflow: dial tcp: connection refused"]
           poolP5⟩ := by
  decide

end Airflow
